import Mathlib

/-!
A shallow embedding in Lean 4 of the `swordkee/queue` simple worker
(`src/simple/simple.go`) and its message envelope package
(`src/job/job.go`), together with theorems settling the specification
claims about them.

Modelling conventions:
* Go `time.Duration` values are `Nat` nanosecond counts.
* Go `error` values returned by tasks are `Option String` (`none` = `nil`).
* Recovered panic values (`interface\x7b\x7d`) are `String`.
* Channel operations that panic at the Go level (double close, send on a
  closed channel, index out of range) surface as an explicit `GoPanic`.
* The three-way race inside `Worker.handle` (task settles / deadline
  expires / stop channel closes) is resolved by an explicit `FirstEvent`
  tag on each queued envelope, recording which of the three events fires
  first; the embedding of `handle` follows the corresponding `select`
  branch of the source deterministically from that tag.
* A blocking channel receive that can never be satisfied is represented by
  the explicit result `HandleResult.hang` / `RunOutcome.hang`.
-/

namespace QueueSpec

/-- Run-time faults of the Go runtime that the modelled code can raise:
closing a closed channel, sending on a closed channel, and indexing an
empty slice. -/
inductive GoPanic where
  | closeOfClosedChannel
  | sendOnClosedChannel
  | indexOutOfRange
deriving DecidableEq, Repr

/-- Result of a Go operation that may panic at the runtime level. -/
inductive GoResult (α : Type) where
  | ok (a : α)
  | panicked (p : GoPanic)
deriving DecidableEq, Repr

/-- Go slice indexing `xs[i]`: yields the element, or an
index-out-of-range runtime fault. -/
def goIndex {α : Type} (xs : List α) (i : Nat) : GoResult α :=
  if h : i < xs.length then .ok (xs.get ⟨i, h⟩) else .panicked .indexOutOfRange

/-- `close(ch)` on a channel whose closed-flag is `closed`: returns the new
closed-flag or faults if the channel was already closed. -/
def closeChan (closed : Bool) : GoResult Bool :=
  if closed then .panicked .closeOfClosedChannel else .ok true

/-- `time.Millisecond` in nanoseconds. -/
def timeMillisecond : Nat := 1000000

/-- `time.Minute` in nanoseconds. -/
def timeMinute : Nat := 60000000000

/-- The default retry delay, 100 milliseconds, in nanoseconds. -/
def defaultRetryDelay : Nat := 100000000

/-- The default task timeout, 60 minutes, in nanoseconds. -/
def defaultTimeout : Nat := 3600000000000

namespace core

/-- `core.QueuedMessage` (external collaborator of `src/job/job.go`): a
queued-message source exposing a byte payload accessor `Bytes()`. -/
structure QueuedMessage where
  Bytes : List UInt8
deriving DecidableEq, Repr

end core

namespace job

/-- Denotation of `job.TaskFunc = func(context.Context) error`.  No code in
the provided sources ever invokes a stored `Task`, so the execution context
is elided; the function yields the task's returned error (`none` = `nil`). -/
def TaskFunc : Type := Unit → Option String

/-- `job.Message` (src/job/job.go): a task | payload envelope with
timeout/retry metadata.  `Task` is `none` exactly when the Go field is a
nil function value; `Data` holds the raw bytes set by `Encode`. -/
structure Message where
  Task : Option TaskFunc
  Timeout : Nat
  Payload : List UInt8
  RetryCount : Int
  RetryDelay : Nat
  Data : List UInt8

/-- `Message.Bytes` (src/job/job.go): returns the internal `Data` bytes. -/
def Message.BytesOf (m : Message) : List UInt8 := m.Data

/-- Modelled from the spec: the `job` package's option constructor
(`job.Options` / `job.AllowOption` / `job.NewOptions`) is used by
`NewMessage` and `NewTask` but its source file is not among the provided
sources.  Per the spec's data model: `retryCount` defaults to 0,
`retryDelay` defaults to 100ms, `timeout` defaults to 60 minutes if
unset. -/
structure Options where
  retryCount : Int
  retryDelay : Nat
  timeout : Nat
deriving DecidableEq, Repr

/-- Modelled from the spec: an option mutates the `Options` record. -/
def AllowOption : Type := Options → Options

/-- Modelled from the spec: `NewOptions` starts from the defaults
(retryCount 0, retryDelay 100ms, timeout 60 minutes) and applies the given
options in order. -/
def NewOptions (opts : List AllowOption) : Options :=
  opts.foldl (fun o f => f o) ⟨0, defaultRetryDelay, defaultTimeout⟩

/-- `job.NewMessage` (src/job/job.go): build an envelope from an external
queued-message source; carries the source's bytes as `Payload`, leaves
`Task` nil (Go zero value). -/
def NewMessage (m : core.QueuedMessage) (opts : List AllowOption) : Message :=
  let o := NewOptions opts
  { Task := none
    RetryCount := o.retryCount
    RetryDelay := o.retryDelay
    Timeout := o.timeout
    Payload := m.Bytes
    Data := [] }

/-- `job.NewTask` (src/job/job.go): build an envelope from a callable;
carries the callable as `Task`, leaves `Payload` empty (Go zero value). -/
def NewTask (task : TaskFunc) (opts : List AllowOption) : Message :=
  let o := NewOptions opts
  { Task := some task
    Timeout := o.timeout
    RetryCount := o.retryCount
    RetryDelay := o.retryDelay
    Payload := []
    Data := [] }

/-- `job.Decode` (src/job/job.go): reinterprets the input bytes in place as
a `*Message` via `unsafe.Pointer(&m[0])`.  Its first action indexes element
0 of the slice, which faults on an empty slice.  The reinterpretation
itself is architecture- and layout-dependent (spec §4.5) and has no
portable meaning, so the decoded envelope is represented by the byte
storage it aliases. -/
def Decode (m : List UInt8) : GoResult (List UInt8) :=
  match goIndex m 0 with
  | .ok _ => .ok m
  | .panicked p => .panicked p

end job

namespace simple

/-- Behaviour of one invocation of the worker's `runFunc` on a queued
message: it either returns an error value (`none` = `nil`) through the
`done` channel, or panics with a value recovered into `panicChan`. -/
inductive TaskOutcome where
  | returns (e : Option String)
  | panics (v : String)
deriving DecidableEq, Repr

/-- Which of the three raced events inside `Worker.handle` fires first:
the task goroutine settles (sends on `done` or `panicChan`) before the
context deadline and before a shutdown, the context deadline expires
first, or the `stop` channel closes first. -/
inductive FirstEvent where
  | settle
  | deadline
  | stop
deriving DecidableEq, Repr

/-- A queued envelope as the worker loop sees it: the `Timeout` carried by
the asserted `queue.Job` (the type assertion `m.(queue.Job)` is modelled
as succeeding), plus the behaviour of `runFunc` on it. -/
structure Env where
  timeout : Nat
  first : FirstEvent
  outcome : TaskOutcome
deriving DecidableEq, Repr

/-- Entries emitted through the worker's logger: the timeout notice from
`handle` (`Infof("job timeout: %s", job.Timeout.String())`) and the error
log from `Run` (`s.logger.Error(err.Error())`). -/
inductive LogEntry where
  | timeoutNotice (d : Nat)
  | appError (e : String)
deriving DecidableEq, Repr

/-- Result of one `Worker.handle` call: it re-raises a recovered panic
value to its caller, returns the task's error value, or blocks forever on
a channel receive that can never be satisfied. -/
inductive HandleResult where
  | fault (v : String)
  | ret (e : Option String)
  | hang
deriving DecidableEq, Repr

/-- `Worker.handle` (src/simple/simple.go:39-76).  The task goroutine sends
the `runFunc` result on `done`, or a recovered panic value on `panicChan`;
the `select` then follows the branch of the event that fires first:
* task settled: `panicChan` case re-raises the panic (`panic(p)`), `done`
  case returns the error;
* deadline expired: `ctx.Err()` is `DeadlineExceeded`, so a timeout notice
  is logged, then `return <-done` waits for the task's eventual result —
  if the task instead panics, nothing is ever sent on `done` and the
  receive blocks forever;
* stop closed: `cancel()` then `return <-done`, likewise waiting. -/
def Worker.handle (env : Env) : List LogEntry × HandleResult :=
  match env.first with
  | .settle =>
    match env.outcome with
    | .panics v => ([], .fault v)
    | .returns e => ([], .ret e)
  | .deadline =>
    ([.timeoutNotice env.timeout],
      match env.outcome with
      | .returns e => .ret e
      | .panics _ => .hang)
  | .stop =>
    ([],
      match env.outcome with
      | .returns e => .ret e
      | .panics _ => .hang)

/-- The duration passed to `context.WithTimeout` at src/simple/simple.go:44
when `handle` runs an envelope: the envelope's own `job.Timeout`,
unchanged. -/
def Worker.handleDeadline (env : Env) : Nat := env.timeout

/-- Outcome of the worker loop `Run` over the buffered envelopes. -/
inductive RunOutcome where
  | normal
  | fault (v : String)
  | hang
deriving DecidableEq, Repr

/-- Trace of the worker loop: log entries emitted, number of envelopes
whose execution was started, and how the loop ended. -/
structure RunTrace where
  logs : List LogEntry
  executed : Nat
  outcome : RunOutcome
deriving DecidableEq, Repr

/-- The `for task := range s.taskQueue` loop body of `Worker.Run`
(src/simple/simple.go:87-92) over the listed envelopes, assuming the
channel is closed after them: each envelope is handled in FIFO order; a
non-nil handle result is logged and the loop continues; a re-raised panic
propagates (no further envelope is executed); a hung `handle` never
returns (no further envelope is executed either). -/
def runList : List Env → RunTrace
  | [] => ⟨[], 0, .normal⟩
  | env :: rest =>
    match Worker.handle env with
    | (ls, .fault v) => ⟨ls, 1, .fault v⟩
    | (ls, .hang) => ⟨ls, 1, .hang⟩
    | (ls, .ret none) =>
      let t := runList rest
      ⟨ls ++ t.logs, t.executed + 1, t.outcome⟩
    | (ls, .ret (some e)) =>
      let t := runList rest
      ⟨ls ++ .appError e :: t.logs, t.executed + 1, t.outcome⟩

/-- State of a `simple.Worker`: the buffered contents and fixed capacity of
`taskQueue`, the closed-flags of the `stop` channel and of `taskQueue`,
and whether the `sync.Once` guarding shutdown has fired. -/
structure WorkerState where
  taskQueue : List Env
  capacity : Nat
  stopClosed : Bool
  queueClosed : Bool
  stopOnceDone : Bool
deriving DecidableEq, Repr

/-- How `Worker.Run` ends: the `nil` return after the queue is drained and
closed, the early `ErrQueueShutdown` return, a propagated panic, or a hang
inside `handle`. -/
inductive RunResult where
  | retNil
  | retShutdown
  | fault (v : String)
  | hang
deriving DecidableEq, Repr

/-- `Worker.Run` (src/simple/simple.go:79-93): if the `stop` channel is
already closed, the opening `select` returns `queue.ErrQueueShutdown`
before any envelope is dequeued; otherwise the range loop processes the
buffered envelopes. -/
def Worker.Run (s : WorkerState) : List LogEntry × Nat × RunResult :=
  if s.stopClosed then ([], 0, .retShutdown)
  else
    let t := runList s.taskQueue
    (t.logs, t.executed,
      match t.outcome with
      | .normal => .retNil
      | .fault v => .fault v
      | .hang => .hang)

/-- `Worker.Shutdown` (src/simple/simple.go:96-102): inside
`stopOnce.Do`, close the `stop` channel and close `taskQueue`; always
return `nil`.  The `sync.Once` body runs only on the first call. -/
def Worker.Shutdown (s : WorkerState) : WorkerState × GoResult (Option String) :=
  if s.stopOnceDone then (s, .ok none)
  else
    match closeChan s.stopClosed with
    | .panicked p => ({ s with stopOnceDone := true }, .panicked p)
    | .ok _ =>
      match closeChan s.queueClosed with
      | .panicked p =>
        ({ s with stopClosed := true, stopOnceDone := true }, .panicked p)
      | .ok _ =>
        ({ s with stopClosed := true, queueClosed := true,
                  stopOnceDone := true }, .ok none)

/-- `Worker.Capacity` (src/simple/simple.go:105-107). -/
def Worker.Capacity (s : WorkerState) : Nat := s.capacity

/-- `Worker.Usage` (src/simple/simple.go:110-112). -/
def Worker.Usage (s : WorkerState) : Nat := s.taskQueue.length

/-- Queue-level error values returned by `Worker.Queue` and `Worker.Run`:
`queue.ErrQueueShutdown` and the package-local `errMaxCapacity`
("max capacity reached"). -/
inductive QueueError where
  | queueShutdown
  | maxCapacity
deriving DecidableEq, Repr

/-- `Worker.Queue` (src/simple/simple.go:115-128): first `select` returns
`ErrQueueShutdown` when `stop` is closed; otherwise the second `select`
attempts a non-blocking send on `taskQueue` — a send on a closed channel
faults, a send into a free slot succeeds, and a full buffer falls to the
`default` branch returning `errMaxCapacity`. -/
def Worker.Queue (s : WorkerState) (job : Env) :
    WorkerState × GoResult (Option QueueError) :=
  if s.stopClosed then (s, .ok (some .queueShutdown))
  else if s.queueClosed then (s, .panicked .sendOnClosedChannel)
  else if s.taskQueue.length < s.capacity then
    ({ s with taskQueue := s.taskQueue ++ [job] }, .ok none)
  else (s, .ok (some .maxCapacity))

/-- `defaultQueueSize` (src/simple/simple.go:11). -/
def defaultQueueSize : Nat := 4096

/-- An option mutates the worker under construction.  `WithRunFunc` and
`WithLogger` configure collaborators that this state model represents
behaviourally (through `Env.outcome` and `LogEntry`), so only the
queue-shaping option is modelled on the state. -/
def WorkerOption : Type := WorkerState → WorkerState

/-- `WithQueueNum` (src/simple/simple.go:131-135): replaces `taskQueue`
with a fresh channel of capacity `num`. -/
def WithQueueNum (num : Nat) : WorkerOption :=
  fun w => { w with taskQueue := [], capacity := num }

/-- `NewWorker` (src/simple/simple.go:152-169): fresh channels (nothing
buffered, nothing closed, `sync.Once` unfired), default capacity 4096,
then the options applied in order. -/
def NewWorker (opts : List WorkerOption) : WorkerState :=
  opts.foldl (fun w f => f w)
    { taskQueue := []
      capacity := defaultQueueSize
      stopClosed := false
      queueClosed := false
      stopOnceDone := false }

/-- Iterated `Shutdown`: returns the final state together with, per call,
whether the `sync.Once` body ran on that call and the call's result. -/
def shutdownTrace : Nat → WorkerState → WorkerState × List (Bool × GoResult (Option String))
  | 0, s => (s, [])
  | n + 1, s =>
    let ran := !s.stopOnceDone
    let (s', r) := Worker.Shutdown s
    let (s'', rs) := shutdownTrace n s'
    (s'', (ran, r) :: rs)

/-- Whether `runFunc` on this envelope reports a result on the `done`
channel (rather than panicking into `panicChan`). -/
def Env.reportsResult (env : Env) : Bool :=
  match env.outcome with
  | .returns _ => true
  | .panics _ => false

/-- The error value an envelope's task reports when it reports one. -/
def Env.result (env : Env) : Option String :=
  match env.outcome with
  | .returns e => e
  | .panics _ => none

/-- Well-formedness of reachable worker states: the only code that sets
the once-guard also closes the `stop` channel, so `stopOnceDone` implies
`stopClosed`. -/
def WorkerState.wf (s : WorkerState) : Prop :=
  s.stopOnceDone = true → s.stopClosed = true

/-- Results of three successive `Queue` calls of the same envelope onto a
fresh worker of capacity 2 (the spec's backpressure instance). -/
def enqueueThrice (j : Env) : List (GoResult (Option QueueError)) :=
  let w0 := NewWorker [WithQueueNum 2]
  let (w1, r1) := Worker.Queue w0 j
  let (w2, r2) := Worker.Queue w1 j
  let (_, r3) := Worker.Queue w2 j
  [r1, r2, r3]

end simple

/-- The `queue.Job` view of a `job.Message` as `Worker.handle` asserts it:
the envelope's `Timeout` together with the behaviour of `runFunc` on it. -/
def job.Message.toEnv (m : job.Message) (first : simple.FirstEvent)
    (outcome : simple.TaskOutcome) : simple.Env :=
  ⟨m.Timeout, first, outcome⟩

/-- Helper: whenever the task reports a result, `handle` ends with that
result, whichever event fired first. -/
theorem handle_of_reportsResult (env : simple.Env)
    (h : env.reportsResult = true) :
    (simple.Worker.handle env).2 = .ret env.result := by
  obtain ⟨t, f, o⟩ := env
  cases o with
  | returns e => cases f <;> rfl
  | panics v => simp [simple.Env.reportsResult] at h

/-- Helper: `Shutdown` on a worker whose once-guard has already fired does
nothing and returns nil. -/
theorem shutdown_of_onceDone (s : simple.WorkerState)
    (h : s.stopOnceDone = true) :
    simple.Worker.Shutdown s = (s, .ok none) := by
  unfold simple.Worker.Shutdown
  rw [h]
  simp

/-- Helper: the state left by `Shutdown` always has the `stop` channel
closed, given the once-guard well-formedness of the input state. -/
theorem shutdown_stopClosed (s : simple.WorkerState) (hwf : s.wf) :
    ((simple.Worker.Shutdown s).1).stopClosed = true := by
  unfold simple.Worker.Shutdown
  cases hd : s.stopOnceDone with
  | true => simpa using hwf hd
  | false =>
    cases hsc : s.stopClosed with
    | true => simp [closeChan]
    | false => cases hqc : s.queueClosed <;> simp [closeChan]

/-- Claim C9: every Message built by NewTask carries a non-nil Task and an
empty Payload, and every Message built by NewMessage carries the source's
byte payload and a nil Task; the two constructor paths never populate both
fields. -/
theorem claim_C9_constructor_invariant
    (task : job.TaskFunc) (src : core.QueuedMessage)
    (opts opts' : List job.AllowOption) :
    (job.NewTask task opts).Task = some task ∧
    (job.NewTask task opts).Payload = [] ∧
    (job.NewMessage src opts').Payload = src.Bytes ∧
    (job.NewMessage src opts').Task = none :=
  ⟨rfl, rfl, rfl, rfl⟩

/-- Claim C10: Decode applied to a non-empty byte slice returns an
envelope (the aliased storage), while applied to the empty slice it faults
with an index-out-of-range panic — its first action indexes element 0 of
the input — so non-emptiness is the precondition for Decode returning an
envelope. -/
theorem claim_C10_decode_requires_nonempty (m : List UInt8) (h : m ≠ []) :
    job.Decode m = .ok m ∧
    job.Decode [] = .panicked .indexOutOfRange := by
  refine ⟨?_, rfl⟩
  cases m with
  | nil => exact absurd rfl h
  | cons a as => simp [job.Decode, goIndex]

/-- Witness for C10 at the one-byte input `[7]`. -/
theorem claim_C10_witness :
    job.Decode [(7 : UInt8)] = .ok [(7 : UInt8)] ∧
    job.Decode [] = .panicked .indexOutOfRange :=
  claim_C10_decode_requires_nonempty [(7 : UInt8)] (by decide)

/-- Claim C8: an envelope built by NewTask with its timeout left unset (no
timeout option given) carries the spec-modelled default Timeout of 60
minutes, and the deadline `handle` passes to `context.WithTimeout` when
running that envelope is exactly that 60-minute duration. -/
theorem claim_C8_default_deadline (task : job.TaskFunc)
    (first : simple.FirstEvent) (outcome : simple.TaskOutcome) :
    (job.NewTask task []).Timeout = defaultTimeout ∧
    simple.Worker.handleDeadline ((job.NewTask task []).toEnv first outcome)
      = defaultTimeout ∧
    defaultTimeout = 60 * timeMinute := by
  refine ⟨rfl, rfl, ?_⟩
  norm_num [defaultTimeout, timeMinute]

/-- Claim C7: on a worker whose shutdown has been initiated (`stop`
closed), `Run` returns `ErrQueueShutdown` at once, emitting no log and
executing no envelope, however many envelopes are still buffered. -/
theorem claim_C7_run_after_shutdown (s : simple.WorkerState)
    (h : s.stopClosed = true) :
    simple.Worker.Run s = ([], 0, .retShutdown) := by
  unfold simple.Worker.Run
  rw [h]
  simp

/-- Witness for C7: a shut-down worker with one envelope still buffered. -/
theorem claim_C7_witness :
    simple.Worker.Run ⟨[⟨0, .settle, .returns none⟩], 4096, true, true, true⟩
      = ([], 0, .retShutdown) :=
  claim_C7_run_after_shutdown _ rfl

/-- Claim C5: on a worker holding exactly `Capacity` buffered envelopes
with shutdown not initiated, `Queue` returns `errMaxCapacity` (the
capacity error) without blocking and leaves the state untouched; and in
the capacity-2 instance, of three successive enqueues the first two
succeed and the third fails with the capacity error. -/
theorem claim_C5_capacity_exceeded (s : simple.WorkerState) (j j' : simple.Env)
    (hfull : s.taskQueue.length = simple.Worker.Capacity s)
    (hstop : s.stopClosed = false) (hqc : s.queueClosed = false) :
    simple.Worker.Queue s j = (s, .ok (some .maxCapacity)) ∧
    simple.enqueueThrice j' = [.ok none, .ok none, .ok (some .maxCapacity)] := by
  constructor
  · unfold simple.Worker.Queue
    rw [hstop, hqc]
    simp [simple.Worker.Capacity] at hfull
    simp [hfull]
  · rfl

/-- Witness for C5: a full capacity-2 worker rejects a further envelope
and the three-enqueue instance behaves as stated. -/
theorem claim_C5_witness :
    simple.Worker.Queue
        ⟨[⟨0, .settle, .returns none⟩, ⟨0, .settle, .returns none⟩], 2,
          false, false, false⟩ ⟨0, .settle, .returns none⟩
      = (⟨[⟨0, .settle, .returns none⟩, ⟨0, .settle, .returns none⟩], 2,
          false, false, false⟩, .ok (some .maxCapacity)) ∧
    simple.enqueueThrice ⟨0, .settle, .returns none⟩
      = [.ok none, .ok none, .ok (some .maxCapacity)] :=
  claim_C5_capacity_exceeded _ _ _ rfl rfl rfl

/-- Claim C4: once `Shutdown` has completed on a (well-formed) worker,
every subsequent `Queue` call returns `ErrQueueShutdown` and leaves the
state unchanged, regardless of how many free slots the task queue has. -/
theorem claim_C4_queue_after_shutdown (s : simple.WorkerState)
    (hwf : s.wf) (j : simple.Env) :
    simple.Worker.Queue (simple.Worker.Shutdown s).1 j
      = ((simple.Worker.Shutdown s).1, .ok (some .queueShutdown)) := by
  have h := shutdown_stopClosed s hwf
  unfold simple.Worker.Queue
  rw [h]
  simp

/-- Witness for C4: an empty worker (all slots free) is shut down; the
next enqueue is refused with the shutdown error. -/
theorem claim_C4_witness :
    simple.Worker.Queue
        (simple.Worker.Shutdown ⟨[], 4, false, false, false⟩).1
        ⟨0, .settle, .returns none⟩
      = ((simple.Worker.Shutdown ⟨[], 4, false, false, false⟩).1,
          .ok (some .queueShutdown)) :=
  claim_C4_queue_after_shutdown ⟨[], 4, false, false, false⟩
    (by intro h; exact absurd h (by decide)) ⟨0, .settle, .returns none⟩

/-- Claim C2: when the deadline expires before the task settles, `handle`
logs the timeout notice (carrying the envelope's timeout) and then returns
the task's eventual result once the task goroutine reports one — it does
not detach the task or advance before that. -/
theorem claim_C2_timeout_logs_and_waits (env : simple.Env) (e : Option String)
    (hfirst : env.first = .deadline) (hout : env.outcome = .returns e) :
    simple.Worker.handle env = ([.timeoutNotice env.timeout], .ret e) := by
  obtain ⟨t, f, o⟩ := env
  cases hfirst
  cases hout
  rfl

/-- Witness for C2: a 50ns-timeout envelope whose task outlives the
deadline and eventually returns the error value `some late`. -/
theorem claim_C2_witness :
    simple.Worker.handle ⟨50, .deadline, .returns (some "late")⟩
      = ([.timeoutNotice 50], .ret (some "late")) :=
  claim_C2_timeout_logs_and_waits ⟨50, .deadline, .returns (some "late")⟩
    (some "late") rfl rfl

/-- Claim C6: an envelope whose task returns an application-level error is
logged by the loop, which then proceeds with the remaining envelopes; the
loop's count of further executions and its final outcome are exactly those
of the remaining envelopes, so `Run` does not return because of the
returned error. -/
theorem claim_C6_app_error_logged_loop_continues (env : simple.Env)
    (e : String) (rest : List simple.Env)
    (h : env.outcome = .returns (some e)) :
    simple.runList (env :: rest) =
      ⟨(simple.Worker.handle env).1
          ++ .appError e :: (simple.runList rest).logs,
        (simple.runList rest).executed + 1,
        (simple.runList rest).outcome⟩ := by
  have hr : env.reportsResult = true := by
    simp [simple.Env.reportsResult, h]
  have h2 := handle_of_reportsResult env hr
  have hres : env.result = some e := by
    simp [simple.Env.result, h]
  rw [hres] at h2
  rcases hh : simple.Worker.handle env with ⟨ls, r⟩
  rw [hh] at h2
  simp only at h2
  subst h2
  simp [simple.runList, hh]

/-- Witness for C6: a task returning the error `boom` followed by one more
envelope; the error is logged and the second envelope still runs. -/
theorem claim_C6_witness :
    simple.runList
        [⟨0, .settle, .returns (some "boom")⟩, ⟨0, .settle, .returns none⟩] =
      ⟨(simple.Worker.handle ⟨0, .settle, .returns (some "boom")⟩).1
          ++ .appError "boom"
            :: (simple.runList [⟨0, .settle, .returns none⟩]).logs,
        (simple.runList [⟨0, .settle, .returns none⟩]).executed + 1,
        (simple.runList [⟨0, .settle, .returns none⟩]).outcome⟩ :=
  claim_C6_app_error_logged_loop_continues ⟨0, .settle, .returns (some "boom")⟩
    "boom" [⟨0, .settle, .returns none⟩] rfl

/-- Helper: a prefix of envelopes all of whose tasks report results does
not change the loop's final outcome, and adds exactly its length to the
count of executed envelopes. -/
theorem runList_reporting_prefix (pre rest : List simple.Env)
    (h : ∀ x ∈ pre, x.reportsResult = true) :
    (simple.runList (pre ++ rest)).outcome = (simple.runList rest).outcome ∧
    (simple.runList (pre ++ rest)).executed
      = pre.length + (simple.runList rest).executed := by
  induction pre with
  | nil => simp
  | cons env tl ih =>
    have henv : env.reportsResult = true := h env (List.mem_cons_self env tl)
    have h2 := handle_of_reportsResult env henv
    have htl : ∀ x ∈ tl, x.reportsResult = true :=
      fun x hx => h x (List.mem_cons_of_mem env hx)
    obtain ⟨ih1, ih2⟩ := ih htl
    rcases hh : simple.Worker.handle env with ⟨ls, r⟩
    rw [hh] at h2
    simp only at h2
    subst h2
    cases hres : env.result with
    | none =>
      rw [hres] at hh
      constructor
      · simpa [simple.runList, hh] using ih1
      · simp [simple.runList, hh, ih2]
        omega
    | some e =>
      rw [hres] at hh
      constructor
      · simpa [simple.runList, hh] using ih1
      · simp [simple.runList, hh, ih2]
        omega

/-- Claim C1 (amended): when the panic is delivered before the deadline
and before shutdown — the `panicChan` case wins the select — `handle`
re-raises it, the fault propagates out of `Run`, and no envelope after the
faulting one is executed (the count of executed envelopes stops at the
faulting one). -/
theorem claim_C1_amended_fault_propagates (pre post : List simple.Env)
    (env : simple.Env) (v : String) (cap : Nat) (qc od : Bool)
    (hpre : ∀ x ∈ pre, x.reportsResult = true)
    (hfirst : env.first = .settle) (hout : env.outcome = .panics v) :
    (simple.runList (pre ++ env :: post)).outcome = .fault v ∧
    (simple.runList (pre ++ env :: post)).executed = pre.length + 1 ∧
    (simple.Worker.Run ⟨pre ++ env :: post, cap, false, qc, od⟩).2.2
      = .fault v ∧
    (simple.Worker.Run ⟨pre ++ env :: post, cap, false, qc, od⟩).2.1
      = pre.length + 1 := by
  have hstep : simple.runList (env :: post) = ⟨[], 1, .fault v⟩ := by
    obtain ⟨t, f, o⟩ := env
    cases hfirst
    cases hout
    rfl
  obtain ⟨h1, h2⟩ := runList_reporting_prefix pre (env :: post) hpre
  rw [hstep] at h1 h2
  refine ⟨h1, h2, ?_, ?_⟩
  · simp [simple.Worker.Run, h1]
  · simp [simple.Worker.Run, h2]

/-- Witness for C1 (amended): one well-behaved envelope, then a task that
panics with `kaboom` before its deadline, then one more buffered envelope;
the fault propagates and only two envelopes are ever executed. -/
theorem claim_C1_witness :
    (simple.runList
        [⟨0, .settle, .returns none⟩, ⟨0, .settle, .panics "kaboom"⟩,
          ⟨0, .settle, .returns none⟩]).outcome = .fault "kaboom" ∧
    (simple.runList
        [⟨0, .settle, .returns none⟩, ⟨0, .settle, .panics "kaboom"⟩,
          ⟨0, .settle, .returns none⟩]).executed = 1 + 1 ∧
    (simple.Worker.Run
        ⟨[⟨0, .settle, .returns none⟩, ⟨0, .settle, .panics "kaboom"⟩,
            ⟨0, .settle, .returns none⟩], 4096, false, false, false⟩).2.2
      = .fault "kaboom" ∧
    (simple.Worker.Run
        ⟨[⟨0, .settle, .returns none⟩, ⟨0, .settle, .panics "kaboom"⟩,
            ⟨0, .settle, .returns none⟩], 4096, false, false, false⟩).2.1
      = 1 + 1 :=
  claim_C1_amended_fault_propagates [⟨0, .settle, .returns none⟩]
    [⟨0, .settle, .returns none⟩] ⟨0, .settle, .panics "kaboom"⟩ "kaboom"
    4096 false false (by decide) rfl rfl

/-- Counterexample to claim C1 as stated: an envelope whose task panics
only after its 50ns deadline has expired.  `handle` takes the deadline
branch, logs the timeout, then blocks forever receiving on `done` (the
panic value sits unread in `panicChan`): the fault is not re-raised and
`Run` never terminates, so a worker with this single queued envelope does
not propagate the fault. -/
theorem claim_C1_counterexample :
    (simple.Worker.Run
        ⟨[⟨50, .deadline, .panics "boom"⟩], 4096, false, false, false⟩).2.2
      = .hang ∧
    (simple.Worker.Run
        ⟨[⟨50, .deadline, .panics "boom"⟩], 4096, false, false, false⟩).2.2
      ≠ .fault "boom" := by
  constructor
  · rfl
  · decide

/-- Helper: once the `sync.Once` guard has fired, iterated `Shutdown` is
inert — every further call skips the body and returns nil. -/
theorem shutdownTrace_done (m : Nat) (s : simple.WorkerState)
    (h : s.stopOnceDone = true) :
    simple.shutdownTrace m s = (s, List.replicate m (false, .ok none)) := by
  induction m with
  | zero => rfl
  | succ k ih =>
    unfold simple.shutdownTrace
    rw [shutdown_of_onceDone s h]
    simp [h, ih, List.replicate_succ]

/-- Helper: on a worker with nothing closed and the guard unfired, the
first `Shutdown` runs the close transition (no double-close fault) and all
later calls skip it. -/
theorem shutdownTrace_fresh (m : Nat) (s : simple.WorkerState)
    (h1 : s.stopOnceDone = false) (h2 : s.stopClosed = false)
    (h3 : s.queueClosed = false) :
    simple.shutdownTrace (m + 1) s =
      ({ s with
          stopClosed := true
          queueClosed := true
          stopOnceDone := true },
        (true, .ok none) :: List.replicate m (false, .ok none)) := by
  have hS : simple.Worker.Shutdown s =
      ({ s with
          stopClosed := true
          queueClosed := true
          stopOnceDone := true }, .ok none) := by
    unfold simple.Worker.Shutdown closeChan
    rw [h1, h2, h3]
    simp
  have hD := shutdownTrace_done m
    { s with stopClosed := true, queueClosed := true, stopOnceDone := true } rfl
  unfold simple.shutdownTrace
  rw [hS, h1]
  simp [hD]

/-- Helper: none of the skipped calls counts as a run of the close
transition. -/
theorem countP_ran_replicate (m : Nat) :
    (List.replicate m ((false, .ok none) :
        Bool × GoResult (Option String))).countP (fun p => p.1) = 0 := by
  induction m with
  | zero => rfl
  | succ k ih => simp [List.replicate_succ, List.countP_cons, ih]

/-- Claim C3: however many times `Shutdown` is invoked on a fresh worker
(at least once), the close transition runs exactly on the first call,
every call returns nil with no double-close fault, and the final state has
both the stop channel and the task queue closed. -/
theorem claim_C3_shutdown_idempotent (cap n : Nat) (h : 1 ≤ n) :
    (simple.shutdownTrace n (simple.NewWorker [simple.WithQueueNum cap])).2
      = (true, .ok none) :: List.replicate (n - 1) (false, .ok none) ∧
    (∀ p ∈ (simple.shutdownTrace n
        (simple.NewWorker [simple.WithQueueNum cap])).2,
      p.2 = GoResult.ok none) ∧
    (simple.shutdownTrace n
        (simple.NewWorker [simple.WithQueueNum cap])).2.countP
      (fun p => p.1) = 1 ∧
    (simple.shutdownTrace n
        (simple.NewWorker [simple.WithQueueNum cap])).1.stopClosed = true ∧
    (simple.shutdownTrace n
        (simple.NewWorker [simple.WithQueueNum cap])).1.queueClosed
      = true := by
  obtain ⟨m, rfl⟩ : ∃ m, n = m + 1 :=
    ⟨n - 1, (Nat.succ_pred_eq_of_pos h).symm⟩
  have hT := shutdownTrace_fresh m
    (simple.NewWorker [simple.WithQueueNum cap]) rfl rfl rfl
  rw [hT]
  refine ⟨by simp, ?_, ?_, rfl, rfl⟩
  · intro p hp
    rcases List.mem_cons.mp hp with h1 | h1
    · rw [h1]
    · rw [List.eq_of_mem_replicate h1]
  · simp [List.countP_cons, countP_ran_replicate m]

/-- Witness for C3: three `Shutdown` calls on a fresh capacity-2 worker. -/
theorem claim_C3_witness :
    (simple.shutdownTrace 3 (simple.NewWorker [simple.WithQueueNum 2])).2
      = (true, .ok none) :: List.replicate (3 - 1) (false, .ok none) ∧
    (∀ p ∈ (simple.shutdownTrace 3
        (simple.NewWorker [simple.WithQueueNum 2])).2,
      p.2 = GoResult.ok none) ∧
    (simple.shutdownTrace 3
        (simple.NewWorker [simple.WithQueueNum 2])).2.countP
      (fun p => p.1) = 1 ∧
    (simple.shutdownTrace 3
        (simple.NewWorker [simple.WithQueueNum 2])).1.stopClosed = true ∧
    (simple.shutdownTrace 3
        (simple.NewWorker [simple.WithQueueNum 2])).1.queueClosed = true :=
  claim_C3_shutdown_idempotent 2 3 (by decide)

end QueueSpec
